import Mathlib

/-
Verification of the `ebag` views of a Django e-commerce site
(src/eshop/ebag/views.py), shallowly embedded in Lean 4.

The session cart is a Python dict mapping product-id strings to
`{"quantity": <digit string>, "product_data": {field: str(value)}}`.
We model Python dicts as association lists with distinct keys kept in
insertion order, which is exactly the observable behaviour of a Python
dict for the operations the code performs (`.items()`, `len`, `.update`
with a single key, `del`, key lookup).
-/

namespace Ebag

/-- A JSON value, as produced by `json.loads` on the request body and as
emitted by `JsonResponse`. -/
inductive JsonVal where
  | jnull
  | jbool (b : Bool)
  | jstr (s : String)
  | jnum (n : Int)
  | jarr (xs : List JsonVal)
  | jobj (fields : List (String × JsonVal))

/-- A value of a Django model field before stringification; the cart code
applies Python `str` to every field value when snapshotting a product. -/
inductive FieldVal where
  | fstr (s : String)
  | fint (n : Int)
deriving DecidableEq, Repr

/-- Python `str` applied to a product field value
(views.py line 279, `str(v)`). -/
def fieldStr : FieldVal → String
  | .fstr s => s
  | .fint n => toString n

/-- A product row as returned by `product.values()[0]`: the field
dictionary of the matched product. -/
abbrev ProductRow := List (String × FieldVal)

/-- The product table: `Product.objects`, keyed by the integer primary
key `id`. -/
abbrev Db := List (Nat × ProductRow)

/-- `Product.objects.filter(id=pid)` followed by taking `values()[0]`;
`none` models the empty queryset (`if not product`). Primary keys are
unique, so the first match is the row. -/
def dbFilter (db : Db) (pid : Nat) : Option ProductRow :=
  (db.find? (fun p => p.1 == pid)).map (fun p => p.2)

/-- One entry of the session cart:
`{"quantity": quantity, "product_data": {k: str(v) ...}}`
(views.py lines 278-288). -/
structure CartEntry where
  quantity : String
  product_data : List (String × String)
deriving DecidableEq, Repr

/-- The session cart dict: product-id string to entry. -/
abbrev Cart := List (String × CartEntry)

/-- Python `str.isdigit` restricted to ASCII, as used by
`is_valid_ajax_input` (views.py line 313): true iff the string is
non-empty and every character is a digit. -/
def isDigitStr (s : String) : Bool :=
  !s.data.isEmpty && s.data.all Char.isDigit

/-- Python `int` on a digit string (views.py line 224). -/
def strToNat (s : String) : Nat :=
  s.data.foldl (fun a c => a * 10 + (c.toNat - 48)) 0

/-- Python membership test `needle in hay` on strings. -/
def containsSub (hay needle : String) : Bool :=
  decide (needle.toList <:+: hay.toList)

/-- `str(request.META.get('HTTP_REFERER'))` (views.py line 75):
a missing header is `None`, whose `str` is the string `"None"`. -/
def pyStrOfRef : Option String → String
  | none => "None"
  | some s => s

/-- The guard of `validate_referrer`'s redirect (views.py line 76):
`all(r not in referrer for r in valid_referrers)`. -/
def refererBad (valid_referrers : List String) (referer : Option String) : Bool :=
  valid_referrers.all (fun r => !containsSub (pyStrOfRef referer) r)

/-- Python dict single-key `update` (views.py lines 282-288): replaces the
value in place if the key is present, otherwise appends the pair. -/
def dictUpdate (cart : Cart) (k : String) (v : CartEntry) : Cart :=
  if cart.any (fun p => p.1 == k) then
    cart.map (fun p => if p.1 == k then (k, v) else p)
  else
    cart ++ [(k, v)]

/-- `AJAXSessionCart.update_cart_with_product` (views.py lines 267-288):
stores the raw quantity string and the stringified product field
snapshot under the raw product-id string. -/
def update_cart_with_product (cart : Cart) (product_id quantity : String)
    (row : ProductRow) : Cart :=
  dictUpdate cart product_id
    ⟨quantity, row.map (fun p => (p.1, fieldStr p.2))⟩

/-- `AJAXSessionCart.delete_product_from_cart` (views.py lines 255-265):
`del session["cart"][product_id]`, with `KeyError` swallowed. -/
def delete_product_from_cart (cart : Cart) (product_id : String) : Cart :=
  cart.filter (fun p => !(p.1 == product_id))

/-- An element of the posted `items` list; each field is an arbitrary
JSON value until `is_valid_ajax_input` checks it. -/
structure AjaxItem where
  product_id : JsonVal
  quantity : JsonVal

/-- `AJAXSessionCart.is_valid_ajax_input` (views.py lines 302-315):
both fields must be strings and both must satisfy `isdigit`. -/
def is_valid_ajax_input (product_id quantity : JsonVal) : Bool :=
  match product_id, quantity with
  | .jstr p, .jstr q => isDigitStr p && isDigitStr q
  | _, _ => false

/-- Modelled from the spec: `settings.ERR_MSG_INVALID_PARAMS` lives in
the Django settings module, which is not under src/; the spec calls it
the invalid-params error message, so it is modelled as a fixed string
distinct from the no-product message. -/
def ERR_MSG_INVALID_PARAMS : String := "Invalid parameters."

/-- Modelled from the spec: `settings.ERR_MSG_NO_PRODUCT` lives in the
Django settings module, which is not under src/; the spec calls it the
no-product error message. -/
def ERR_MSG_NO_PRODUCT : String := "No such product."

/-- One iteration of the `for item in json.loads(request.POST["items"])`
loop of `AJAXSessionCart.post` (views.py lines 219-236).
`.error (msg, cart)` models reaching a `return_error` call with the
session cart in state `cart`; `.ok cart` models continuing the loop with
the updated session cart. -/
def postStep (db : Db) (item : AjaxItem) (cart : Cart) : Except (String × Cart) Cart :=
  match item.product_id, item.quantity with
  | .jstr pid, .jstr q =>
    if isDigitStr pid && isDigitStr q then
      if strToNat q > 0 then
        match dbFilter db (strToNat pid) with
        | none => .error (ERR_MSG_NO_PRODUCT, cart)
        | some row => .ok (update_cart_with_product cart pid q row)
      else
        .ok (delete_product_from_cart cart pid)
    else
      .error (ERR_MSG_INVALID_PARAMS, cart)
  | _, _ => .error (ERR_MSG_INVALID_PARAMS, cart)

/-- The whole item loop of `AJAXSessionCart.post`, threading the session
cart through `postStep`; an error in any iteration is the loop's result
(the `return` statements at views.py lines 223 and 228). -/
def postLoop (db : Db) : List AjaxItem → Cart → Except (String × Cart) Cart
  | [], cart => .ok cart
  | item :: rest, cart =>
    match postStep db item cart with
    | .error e => .error e
    | .ok cart2 => postLoop db rest cart2

/-- The payload of `AJAXSessionCart.return_json` (views.py lines
290-300): the four instance variables. -/
structure AjaxResponse where
  success : Nat
  err_msg : String
  items_in_cart : Nat
  cart : Cart
deriving DecidableEq, Repr

/-- The observable outcome of one `AJAXSessionCart.post` request: the
JSON response and the session's `"cart"` key afterwards (`none` when the
key has been deleted). -/
structure PostResult where
  response : AjaxResponse
  sessionCart : Option Cart
deriving DecidableEq, Repr

/-- `AJAXSessionCart.post` (views.py lines 211-240).
`set_init_vars` sets `success = 1`, `items_in_cart = 0`, `err_msg = ""`
and creates `session["cart"] = {}` when the key is missing; `self.cart`
aliases the session cart dict.  On a `return_error(msg)` the response is
`success = 0`, `err_msg = msg`, `items_in_cart` still `0`, and `cart` is
the aliased session cart as mutated so far.  On loop completion
`items_in_cart = len(session["cart"])` and `set_cart` deletes the
session cart when that count is below one, after which `self.cart` falls
back to `{}`. -/
def post (db : Db) (session : Option Cart) (items : List AjaxItem) : PostResult :=
  let cart0 := session.getD []
  match postLoop db items cart0 with
  | .error (msg, cart) =>
    { response := ⟨0, msg, 0, cart⟩, sessionCart := some cart }
  | .ok cart =>
    let n := cart.length
    if n < 1 then
      { response := ⟨1, "", n, []⟩, sessionCart := none }
    else
      { response := ⟨1, "", n, cart⟩, sessionCart := some cart }

/-- Dict lookup on a stringified snapshot,
`item["product_data"][key]` as an `Option`. -/
def lookupStr (d : List (String × String)) (k : String) : Option String :=
  (d.find? (fun p => p.1 == k)).map (fun p => p.2)

/-- The list of products of the per-entry terms
`int(item["quantity"]) * float(item["product_data"]["price"])`
(views.py lines 45-48), evaluated left to right; `none` models the
`KeyError` raised when some entry's snapshot lacks a `"price"` key.
`pf` models Python `float` on the stored price string. -/
def priceTerms (pf : String → ℚ) : List CartEntry → Option (List ℚ)
  | [] => some []
  | e :: rest =>
    match lookupStr e.product_data "price", priceTerms pf rest with
    | some pr, some ts => some (((strToNat e.quantity : ℚ) * pf pr) :: ts)
    | _, _ => none

/-- The cart-related part of the context built by
`GeneralContextMixin.common_data` (views.py lines 20-53): the `cart`
value list, `items_in_cart`, and `cart_total` (present only when the
session holds a cart). -/
structure CommonCtx where
  cart : List CartEntry
  items_in_cart : Nat
  cart_total : Option ℚ

/-- `GeneralContextMixin.common_data` (views.py lines 20-53), restricted
to its session-cart outputs (`categories` is a plain DB fetch).  When
the session has a `"cart"` key, `ctx["cart"]` is the list of entry
values, `cart_total` sums quantity times price over that list, and
`items_in_cart` is its length; otherwise `cart` is empty and no total is
set.  `none` overall models the `KeyError` crash of a snapshot without
a price. -/
def common_data (pf : String → ℚ) (sessionCart : Option Cart) : Option CommonCtx :=
  match sessionCart with
  | none => some ⟨[], 0, none⟩
  | some sc =>
    let cartList := sc.map (fun p => p.2)
    match priceTerms pf cartList with
    | none => none
    | some terms => some ⟨cartList, cartList.length, some terms.sum⟩

/-- What a request handler in views.py returns, abstracted to the claims:
a redirect to a named view or a rendered template. -/
inductive View where
  | redirectHomeView
  | redirectThankYouView
  | renderCart
  | renderCheckout
deriving DecidableEq, Repr

/-- The request data consulted by `checkout_view` and its decorators:
the `HTTP_REFERER` header (absent allowed) and the HTTP method. -/
structure Request where
  referer : Option String
  method : String
deriving DecidableEq, Repr

/-- Modelled from the spec: `CheckoutForm` is defined in
src/eshop/ebag/forms.py, which is not part of src/.  The spec states
that a checkout POST clears the session cart and redirects to the
thank-you page, and describes no form-validation failure, so
`form.is_valid()` is modelled as always succeeding. -/
def checkoutFormValid : Bool := true

/-- The outcome of `checkout_view`: the returned view, the session's
`"cart"` key afterwards, and whether `request.session.save()` ran. -/
structure CheckoutOutcome where
  view : View
  sessionCart : Option Cart
  savedSession : Bool
deriving DecidableEq, Repr

/-- `checkout_view` with its decorators (views.py lines 161-178).
`@verify_cart_not_empty` is outermost: a session without a `"cart"` key
redirects home before anything else (lines 94-97).  Then
`@validate_referrer(['/cart/', '/checkout/'])` redirects home when the
stringified referrer contains neither substring (lines 74-78).  The body
then, on a POST with a valid form, deletes the session cart, saves the
session and redirects to `thank_you_view`; otherwise it renders the
checkout page. -/
def checkout_view (req : Request) (sessionCart : Option Cart) : CheckoutOutcome :=
  match sessionCart with
  | none => ⟨.redirectHomeView, sessionCart, false⟩
  | some _ =>
    if refererBad ["/cart/", "/checkout/"] req.referer then
      ⟨.redirectHomeView, sessionCart, false⟩
    else if req.method == "POST" && checkoutFormValid then
      ⟨.redirectThankYouView, none, true⟩
    else
      ⟨.renderCheckout, sessionCart, false⟩

/-- `cart_view` with its `@verify_cart_not_empty` decorator (views.py
lines 140-146): redirect home when the session has no `"cart"` key,
otherwise render the cart page. -/
def cart_view (sessionCart : Option Cart) : View :=
  match sessionCart with
  | none => .redirectHomeView
  | some _ => .renderCart

/-- JSON encoding of one cart entry, as `JsonResponse` serialises the
nested dict written by `update_cart_with_product`. -/
def encodeEntry (e : CartEntry) : JsonVal :=
  .jobj [("quantity", .jstr e.quantity),
         ("product_data", .jobj (e.product_data.map (fun p => (p.1, .jstr p.2))))]

/-- JSON encoding of the cart dict. -/
def encodeCart (c : Cart) : JsonVal :=
  .jobj (c.map (fun p => (p.1, encodeEntry p.2)))

/-- `AJAXSessionCart.return_json` (views.py lines 290-300): the JSON
object `JsonResponse` serialises, with its four keys in source order. -/
def return_json (r : AjaxResponse) : JsonVal :=
  .jobj [("success", .jnum r.success),
         ("err_msg", .jstr r.err_msg),
         ("items_in_cart", .jnum r.items_in_cart),
         ("cart", encodeCart r.cart)]

/-- Checks the shape the spec gives for one cart value in the JSON
response: an object with a string `quantity` and a `product_data` object
all of whose values are strings. -/
def entryShape : JsonVal → Bool
  | .jobj [("quantity", .jstr _), ("product_data", .jobj pd)] =>
    pd.all (fun kv => match kv.2 with | .jstr _ => true | _ => false)
  | _ => false

/-- Checks the shape the spec gives for the whole JSON response: exactly
the keys `success`, `err_msg`, `items_in_cart`, `cart`; `success` is 0
or 1; `err_msg` a string; `items_in_cart` a number; `cart` an object
each of whose values passes `entryShape`. -/
def responseShape : JsonVal → Bool
  | .jobj [("success", .jnum s), ("err_msg", .jstr _),
           ("items_in_cart", .jnum _), ("cart", .jobj kvs)] =>
    (s == 0 || s == 1) && kvs.all (fun kv => entryShape kv.2)
  | _ => false

/-! ### Helper lemmas about the AJAX cart loop -/

/-- Processing a concatenated item list runs the first part and, if it
did not error, continues with the second. -/
theorem postLoop_append (db : Db) (ys : List AjaxItem) :
    ∀ (xs : List AjaxItem) (c : Cart),
      postLoop db (xs ++ ys) c =
        match postLoop db xs c with
        | .error e => .error e
        | .ok c2 => postLoop db ys c2 := by
  intro xs
  induction xs with
  | nil => intro c; rfl
  | cons item rest ih =>
    intro c
    simp only [List.cons_append, postLoop]
    cases postStep db item c with
    | error e => rfl
    | ok c2 => exact ih c2

/-- An item failing `is_valid_ajax_input` makes the loop body return the
invalid-params error, leaving the cart untouched. -/
theorem postStep_invalid (db : Db) (item : AjaxItem) (c : Cart)
    (h : is_valid_ajax_input item.product_id item.quantity = false) :
    postStep db item c = .error (ERR_MSG_INVALID_PARAMS, c) := by
  obtain ⟨pid, q⟩ := item
  cases pid <;> cases q <;>
    simp only [is_valid_ajax_input] at h <;>
    simp [postStep, h]

/-- The loop body either continues with some cart or returns one of the
two error messages with the incoming cart. -/
theorem postStep_cases (db : Db) (item : AjaxItem) (c : Cart) :
    (∃ c2, postStep db item c = .ok c2) ∨
    postStep db item c = .error (ERR_MSG_INVALID_PARAMS, c) ∨
    postStep db item c = .error (ERR_MSG_NO_PRODUCT, c) := by
  unfold postStep
  split
  · split
    · split
      · split
        · right; right; rfl
        · left; exact ⟨_, rfl⟩
      · left; exact ⟨_, rfl⟩
    · right; left; rfl
  · right; left; rfl

/-- An erroring loop body reports the cart it was given. -/
theorem postStep_error_cart (db : Db) (item : AjaxItem) (c c2 : Cart) (m : String)
    (h : postStep db item c = .error (m, c2)) : c2 = c := by
  rcases postStep_cases db item c with ⟨c3, h3⟩ | h3 | h3 <;>
    rw [h3] at h <;> simp_all

/-- An erroring run of the loop splits the item list at a failing item:
everything before it was processed successfully into the reported cart,
and the failing item errors on that cart. -/
theorem postLoop_error_decomp (db : Db) :
    ∀ (items : List AjaxItem) (c0 : Cart) (m : String) (c : Cart),
      postLoop db items c0 = .error (m, c) →
      ∃ pre bad rest, items = pre ++ bad :: rest ∧
        postLoop db pre c0 = .ok c ∧
        postStep db bad c = .error (m, c) := by
  intro items
  induction items with
  | nil =>
    intro c0 m c h
    simp [postLoop] at h
  | cons item rest ih =>
    intro c0 m c h
    simp only [postLoop] at h
    cases hs : postStep db item c0 with
    | error e =>
      rw [hs] at h
      simp only at h
      rw [h] at hs
      have hc : c = c0 := postStep_error_cart db item c0 c m hs
      subst hc
      exact ⟨[], item, rest, rfl, rfl, hs⟩
    | ok c2 =>
      rw [hs] at h
      simp only at h
      obtain ⟨pre, bad, rest2, hsplit, hpre, hbad⟩ := ih c2 m c h
      refine ⟨item :: pre, bad, rest2, by rw [hsplit, List.cons_append], ?_, hbad⟩
      simp only [postLoop, hs]
      exact hpre

/-- Outcome of `post` when the item loop hits a `return_error`: the
response carries `success = 0`, the message, the initial
`items_in_cart = 0`, and the session cart as mutated so far; the session
keeps that cart. -/
theorem post_error (db : Db) (sc : Option Cart) (items : List AjaxItem)
    (m : String) (c : Cart)
    (h : postLoop db items (sc.getD []) = .error (m, c)) :
    post db sc items = ⟨⟨0, m, 0, c⟩, some c⟩ := by
  simp [post, h]

/-- Outcome of `post` when the item loop completes: success response,
with the cart deleted from the session when it ended empty. -/
theorem post_ok (db : Db) (sc : Option Cart) (items : List AjaxItem) (c : Cart)
    (h : postLoop db items (sc.getD []) = .ok c) :
    post db sc items =
      if c.length < 1 then ⟨⟨1, "", c.length, []⟩, none⟩
      else ⟨⟨1, "", c.length, c⟩, some c⟩ := by
  simp only [post, h]

/-- Every encoded cart entry has the spec's entry shape. -/
theorem entryShape_encode (e : CartEntry) : entryShape (encodeEntry e) = true := by
  simp only [encodeEntry, entryShape]
  rw [List.all_eq_true]
  intro kv hkv
  obtain ⟨p, hp, rfl⟩ := List.mem_map.mp hkv
  rfl

/-- Every value of an encoded cart has the spec's entry shape. -/
theorem cartShape_encode (c : Cart) :
    (c.map (fun p => (p.1, encodeEntry p.2))).all (fun kv => entryShape kv.2) = true := by
  rw [List.all_eq_true]
  intro kv hkv
  obtain ⟨p, hp, rfl⟩ := List.mem_map.mp hkv
  exact entryShape_encode p.2

/-- When every snapshot holds a price, `priceTerms` produces exactly the
per-entry quantity-times-price terms. -/
theorem priceTerms_of_present (pf : String → ℚ) :
    ∀ (l : List CartEntry),
      (∀ e ∈ l, (lookupStr e.product_data "price").isSome) →
      priceTerms pf l =
        some (l.map fun e => (strToNat e.quantity : ℚ) *
          pf ((lookupStr e.product_data "price").getD "")) := by
  intro l
  induction l with
  | nil => intro _; rfl
  | cons e rest ih =>
    intro h
    obtain ⟨pr, hpr⟩ := Option.isSome_iff_exists.mp (h e (List.mem_cons_self e rest))
    have hrest := ih (fun x hx => h x (List.mem_cons_of_mem e hx))
    simp [priceTerms, hpr, hrest]

/-! ### The claims -/

/-- Claim C1, counterexample: a request to the AJAX cart endpoint that
ends in an error response can leave the session holding a `"cart"` key
whose mapping is empty.  With no prior cart, `set_init_vars` creates
`session["cart"] = {}`; the first item has a non-digit quantity, so the
handler returns an error without ever running `set_cart`, and the empty
mapping stays in the session. -/
theorem C1_cex :
    (post [] none [⟨JsonVal.jstr "1", JsonVal.jstr "x"⟩]).response.success = 0 ∧
    (post [] none [⟨JsonVal.jstr "1", JsonVal.jstr "x"⟩]).sessionCart = some ([] : Cart) :=
  ⟨rfl, rfl⟩

/-- Claim C1, amended: for every AJAX cart request whose response is a
success (`success = 1`), the session never ends up holding a `"cart"`
key with an empty mapping — `set_cart` deletes the key when the item
count drops to zero.  Requests ending in an error response are not
covered: they skip `set_cart` and can leave an empty mapping. -/
theorem C1_amended (db : Db) (sc : Option Cart) (items : List AjaxItem)
    (h : (post db sc items).response.success = 1) :
    (post db sc items).sessionCart ≠ some ([] : Cart) := by
  cases hr : postLoop db items (sc.getD []) with
  | error e =>
    obtain ⟨m, c⟩ := e
    rw [post_error db sc items m c hr] at h
    simp at h
  | ok c =>
    rw [post_ok db sc items c hr]
    by_cases hn : c.length < 1
    · simp [hn]
    · simp only [if_neg hn]
      intro hc
      rw [Option.some.injEq] at hc
      rw [hc] at hn
      exact hn (by simp)

/-- Witness for C1 amended at a concrete input: an empty items list on
an empty session gives a success response and the session holds no cart
key at all (in particular not an empty one). -/
theorem C1_amended_witness :
    (post [] none ([] : List AjaxItem)).response.success = 1 ∧
    (post [] none ([] : List AjaxItem)).sessionCart ≠ some ([] : Cart) :=
  ⟨rfl, C1_amended [] none [] rfl⟩

/-- Claim C2: when the session holds a cart whose snapshots all carry a
price, `common_data` computes `cart_total` as the sum over the entries
of the quantity (parsed as an integer) times the snapshotted price
(parsed as a number, modelled by `pf`), and `items_in_cart` is the
number of distinct entries of the cart mapping. -/
theorem C2_cart_total (pf : String → ℚ) (sc : Cart)
    (hnd : (sc.map Prod.fst).Nodup)
    (hpr : ∀ p ∈ sc, (lookupStr p.2.product_data "price").isSome) :
    ∃ ctx, common_data pf (some sc) = some ctx ∧
      ctx.items_in_cart = (sc.map Prod.fst).toFinset.card ∧
      ctx.cart_total = some ((sc.map fun p => (strToNat p.2.quantity : ℚ) *
        pf ((lookupStr p.2.product_data "price").getD "")).sum) := by
  have hp : ∀ e ∈ sc.map (fun p => p.2), (lookupStr e.product_data "price").isSome := by
    intro e he
    obtain ⟨p, hpmem, rfl⟩ := List.mem_map.mp he
    exact hpr p hpmem
  have hterms := priceTerms_of_present pf (sc.map (fun p => p.2)) hp
  refine ⟨⟨sc.map (fun p => p.2), (sc.map (fun p => p.2)).length,
    some (((sc.map (fun p => p.2)).map (fun e => (strToNat e.quantity : ℚ) *
      pf ((lookupStr e.product_data "price").getD ""))).sum)⟩, ?_, ?_, ?_⟩
  · simp only [common_data, hterms]
  · simp [List.toFinset_card_of_nodup hnd]
  · simp only [List.map_map]
    rfl

/-- Witness for C2 at a concrete one-entry cart, with `pf` sending every
price string to 3: the total is 2 times 3. -/
theorem C2_cart_total_witness :
    (([("7", (⟨"2", [("price", "2.5")]⟩ : CartEntry))].map Prod.fst).Nodup) ∧
    (∀ p ∈ [("7", (⟨"2", [("price", "2.5")]⟩ : CartEntry))],
      (lookupStr p.2.product_data "price").isSome) ∧
    ∃ ctx, common_data (fun _ => 3) (some [("7", ⟨"2", [("price", "2.5")]⟩)]) = some ctx ∧
      ctx.items_in_cart =
        (([("7", (⟨"2", [("price", "2.5")]⟩ : CartEntry))].map Prod.fst).toFinset.card) ∧
      ctx.cart_total = some (([("7", (⟨"2", [("price", "2.5")]⟩ : CartEntry))].map
        fun p => (strToNat p.2.quantity : ℚ) *
          (fun _ => (3 : ℚ)) ((lookupStr p.2.product_data "price").getD "")).sum) :=
  ⟨by simp, by decide, C2_cart_total (fun _ => 3) _ (by simp) (by decide)⟩

/-- Claim C3, counterexample: an items list that does contain an item
with a non-digit quantity, but whose earlier item names an unknown
product; processing stops at the earlier item and the error message is
the no-product one, not the invalid-params one. -/
theorem C3_cex :
    is_valid_ajax_input (JsonVal.jstr "1") (JsonVal.jstr "x") = false ∧
    (post [] none [⟨JsonVal.jstr "7", JsonVal.jstr "1"⟩,
      ⟨JsonVal.jstr "1", JsonVal.jstr "x"⟩]).response.err_msg = ERR_MSG_NO_PRODUCT ∧
    ERR_MSG_NO_PRODUCT ≠ ERR_MSG_INVALID_PARAMS :=
  ⟨rfl, rfl, by decide⟩

/-- Claim C3, amended: when every item before the malformed one is
processed without error (turning the session cart into `c`), the POST
stops at the malformed item: the response has `success = 0` and the
invalid-params message, and the session cart holds exactly the updates
of the earlier items — the later items are never applied. -/
theorem C3_amended (db : Db) (sc : Option Cart) (pre : List AjaxItem)
    (bad : AjaxItem) (rest : List AjaxItem) (c : Cart)
    (hpre : postLoop db pre (sc.getD []) = .ok c)
    (hbad : is_valid_ajax_input bad.product_id bad.quantity = false) :
    post db sc (pre ++ bad :: rest) = ⟨⟨0, ERR_MSG_INVALID_PARAMS, 0, c⟩, some c⟩ := by
  have hloop : postLoop db (pre ++ bad :: rest) (sc.getD []) =
      .error (ERR_MSG_INVALID_PARAMS, c) := by
    rw [postLoop_append db (bad :: rest) pre, hpre]
    simp only [postLoop, postStep_invalid db bad c hbad]
  exact post_error db sc _ _ _ hloop

/-- Witness for C3 amended: one good item is applied, then a malformed
one stops processing with the invalid-params error, and the trailing
item never reaches the cart. -/
theorem C3_amended_witness :
    postLoop [(7, [("price", FieldVal.fstr "2.5")])]
      [⟨JsonVal.jstr "7", JsonVal.jstr "2"⟩] ((none : Option Cart).getD []) =
      .ok [("7", ⟨"2", [("price", "2.5")]⟩)] ∧
    is_valid_ajax_input (JsonVal.jstr "a") (JsonVal.jstr "2") = false ∧
    post [(7, [("price", FieldVal.fstr "2.5")])] none
      ([⟨JsonVal.jstr "7", JsonVal.jstr "2"⟩] ++
        ⟨JsonVal.jstr "a", JsonVal.jstr "2"⟩ :: [⟨JsonVal.jstr "9", JsonVal.jstr "9"⟩]) =
      ⟨⟨0, ERR_MSG_INVALID_PARAMS, 0, [("7", ⟨"2", [("price", "2.5")]⟩)]⟩,
        some [("7", ⟨"2", [("price", "2.5")]⟩)]⟩ :=
  ⟨rfl, rfl, C3_amended _ none _ _ _ _ rfl rfl⟩

/-- Claim C4, counterexample: a well-formed item (digit-string id and
quantity) whose product id matches no product, but with quantity "0":
the zero-quantity branch is taken before any product lookup, so the
request succeeds instead of returning the no-product error. -/
theorem C4_cex :
    is_valid_ajax_input (JsonVal.jstr "7") (JsonVal.jstr "0") = true ∧
    dbFilter [] (strToNat "7") = none ∧
    (post [] none [⟨JsonVal.jstr "7", JsonVal.jstr "0"⟩]).response.success = 1 ∧
    (post [] none [⟨JsonVal.jstr "7", JsonVal.jstr "0"⟩]).response.err_msg = "" ∧
    ("" : String) ≠ ERR_MSG_NO_PRODUCT :=
  ⟨rfl, rfl, rfl, rfl, by decide⟩

/-- Claim C4, amended: when every earlier item is processed without
error (turning the session cart into `c`) and the failing item is
well-formed with a positive quantity and an unknown product id, the POST
stops there with `success = 0` and the no-product message, and the
session cart holds exactly the earlier updates. -/
theorem C4_amended (db : Db) (sc : Option Cart) (pre : List AjaxItem)
    (pid q : String) (rest : List AjaxItem) (c : Cart)
    (hpre : postLoop db pre (sc.getD []) = .ok c)
    (hpid : isDigitStr pid = true) (hq : isDigitStr q = true)
    (hqpos : 0 < strToNat q)
    (hnone : dbFilter db (strToNat pid) = none) :
    post db sc (pre ++ ⟨JsonVal.jstr pid, JsonVal.jstr q⟩ :: rest) =
      ⟨⟨0, ERR_MSG_NO_PRODUCT, 0, c⟩, some c⟩ := by
  have hstep : postStep db ⟨JsonVal.jstr pid, JsonVal.jstr q⟩ c =
      .error (ERR_MSG_NO_PRODUCT, c) := by
    simp [postStep, hpid, hq, hqpos, hnone]
  have hloop : postLoop db (pre ++ ⟨JsonVal.jstr pid, JsonVal.jstr q⟩ :: rest)
      (sc.getD []) = .error (ERR_MSG_NO_PRODUCT, c) := by
    rw [postLoop_append db _ pre, hpre]
    simp only [postLoop, hstep]
  exact post_error db sc _ _ _ hloop

/-- Witness for C4 amended: on an empty database, a well-formed item
with quantity "2" and id "7" yields the no-product error. -/
theorem C4_amended_witness :
    postLoop [] ([] : List AjaxItem) ((none : Option Cart).getD []) = .ok [] ∧
    isDigitStr "7" = true ∧ isDigitStr "2" = true ∧ 0 < strToNat "2" ∧
    dbFilter [] (strToNat "7") = none ∧
    post [] none (([] : List AjaxItem) ++ ⟨JsonVal.jstr "7", JsonVal.jstr "2"⟩ :: []) =
      ⟨⟨0, ERR_MSG_NO_PRODUCT, 0, []⟩, some []⟩ :=
  ⟨rfl, rfl, rfl, by decide, rfl, C4_amended [] none [] "7" "2" [] [] rfl rfl rfl (by decide) rfl⟩

/-- Claim C5: every POST reaching the body of `checkout_view` (session
cart present, referrer accepted) deletes the session cart key, saves the
session, and redirects to the thank-you view.  `CheckoutForm` is not
under src/ and is modelled from the spec as always valid. -/
theorem C5_checkout_post (req : Request) (c : Cart)
    (hm : req.method = "POST")
    (hr : refererBad ["/cart/", "/checkout/"] req.referer = false) :
    checkout_view req (some c) = ⟨View.redirectThankYouView, none, true⟩ := by
  simp [checkout_view, hr, hm, checkoutFormValid]

/-- Witness for C5: a POST from the cart page with a one-entry cart. -/
theorem C5_checkout_post_witness :
    (Request.mk (some "http://shop/cart/") "POST").method = "POST" ∧
    refererBad ["/cart/", "/checkout/"]
      (Request.mk (some "http://shop/cart/") "POST").referer = false ∧
    checkout_view ⟨some "http://shop/cart/", "POST"⟩
      (some [("1", ⟨"1", []⟩)]) = ⟨View.redirectThankYouView, none, true⟩ :=
  ⟨rfl, rfl, C5_checkout_post _ _ rfl rfl⟩

/-- Claim C6: a request to `checkout_view` whose stringified Referer
header contains neither "/cart/" nor "/checkout/" as a substring is
redirected to the home page, with the session cart untouched and never
saved — the checkout body is not executed. -/
theorem C6_bad_referrer (req : Request) (sc : Option Cart)
    (h1 : containsSub (pyStrOfRef req.referer) "/cart/" = false)
    (h2 : containsSub (pyStrOfRef req.referer) "/checkout/" = false) :
    checkout_view req sc = ⟨View.redirectHomeView, sc, false⟩ := by
  cases sc with
  | none => rfl
  | some c => simp [checkout_view, refererBad, h1, h2]

/-- Witness for C6: a request with no Referer header (stringified to
"None") and a non-empty cart is sent home with the cart intact. -/
theorem C6_bad_referrer_witness :
    containsSub (pyStrOfRef (Request.mk none "POST").referer) "/cart/" = false ∧
    containsSub (pyStrOfRef (Request.mk none "POST").referer) "/checkout/" = false ∧
    checkout_view ⟨none, "POST"⟩ (some [("1", ⟨"1", []⟩)]) =
      ⟨View.redirectHomeView, some [("1", ⟨"1", []⟩)], false⟩ :=
  ⟨rfl, rfl, C6_bad_referrer _ _ rfl rfl⟩

/-- Claim C7: when the session has no `"cart"` key, both `cart_view`
and `checkout_view` redirect to the home page (the
`verify_cart_not_empty` decorator), rendering neither page. -/
theorem C7_empty_cart (req : Request) :
    cart_view none = View.redirectHomeView ∧
    checkout_view req none = ⟨View.redirectHomeView, none, false⟩ :=
  ⟨rfl, rfl⟩

/-- Claim C8: every JSON response of the AJAX cart endpoint is an object
with exactly the keys `success`, `err_msg`, `items_in_cart`, `cart`,
where `success` is 0 or 1, `err_msg` a string, `items_in_cart` a number,
and `cart` an object mapping product-id strings to objects with a string
`quantity` and an all-string `product_data` object. -/
theorem C8_response_shape (db : Db) (sc : Option Cart) (items : List AjaxItem) :
    responseShape (return_json (post db sc items).response) = true := by
  cases hr : postLoop db items (sc.getD []) with
  | error e =>
    obtain ⟨m, c⟩ := e
    rw [post_error db sc items m c hr]
    simp [return_json, responseShape, encodeCart, cartShape_encode]
  | ok c =>
    rw [post_ok db sc items c hr]
    by_cases hn : c.length < 1 <;>
      simp [hn, return_json, responseShape, encodeCart, cartShape_encode]

/-- Claim C9: when a POST to the AJAX cart endpoint returns an error,
the updates of the items before the failing one are not rolled back: the
session keeps exactly the cart produced by successfully processing the
prefix of the items list before the failing item. -/
theorem C9_error_not_rolled_back (db : Db) (sc : Option Cart) (items : List AjaxItem)
    (m : String) (c : Cart)
    (h : postLoop db items (sc.getD []) = .error (m, c)) :
    (post db sc items).response.success = 0 ∧
    (post db sc items).sessionCart = some c ∧
    ∃ pre bad rest, items = pre ++ bad :: rest ∧
      postLoop db pre (sc.getD []) = .ok c ∧
      postStep db bad c = .error (m, c) := by
  refine ⟨?_, ?_, postLoop_error_decomp db items (sc.getD []) m c h⟩ <;>
    rw [post_error db sc items m c h]

/-- Witness for C9: a first item deletes the only cart entry, a second
malformed item raises the error; the session keeps the emptied cart of
the prefix. -/
theorem C9_error_not_rolled_back_witness :
    postLoop [] [⟨JsonVal.jstr "5", JsonVal.jstr "0"⟩,
        ⟨JsonVal.jstr "1", JsonVal.jstr "x"⟩]
      ((some [("5", (⟨"1", []⟩ : CartEntry))] : Option Cart).getD []) =
      .error (ERR_MSG_INVALID_PARAMS, []) ∧
    ((post [] (some [("5", ⟨"1", []⟩)]) [⟨JsonVal.jstr "5", JsonVal.jstr "0"⟩,
        ⟨JsonVal.jstr "1", JsonVal.jstr "x"⟩]).response.success = 0 ∧
      (post [] (some [("5", ⟨"1", []⟩)]) [⟨JsonVal.jstr "5", JsonVal.jstr "0"⟩,
        ⟨JsonVal.jstr "1", JsonVal.jstr "x"⟩]).sessionCart = some [] ∧
      ∃ pre bad rest,
        [⟨JsonVal.jstr "5", JsonVal.jstr "0"⟩, ⟨JsonVal.jstr "1", JsonVal.jstr "x"⟩] =
          pre ++ bad :: rest ∧
        postLoop [] pre ((some [("5", (⟨"1", []⟩ : CartEntry))] : Option Cart).getD []) =
          .ok [] ∧
        postStep [] bad [] = .error (ERR_MSG_INVALID_PARAMS, [])) :=
  ⟨rfl, C9_error_not_rolled_back [] (some [("5", ⟨"1", []⟩)]) _ _ _ rfl⟩

/-- Claim C10: every error response of the AJAX cart endpoint reports
`items_in_cart = 0` — the initial value, never recomputed on the error
path — while its `cart` field is the session cart exactly as it stood
when processing stopped. -/
theorem C10_error_items_in_cart (db : Db) (sc : Option Cart) (items : List AjaxItem)
    (m : String) (c : Cart)
    (h : postLoop db items (sc.getD []) = .error (m, c)) :
    (post db sc items).response.items_in_cart = 0 ∧
    (post db sc items).response.cart = c ∧
    (post db sc items).sessionCart = some c := by
  rw [post_error db sc items m c h]
  exact ⟨rfl, rfl, rfl⟩

/-- Witness for C10: the error occurs while the session cart holds one
entry, yet the response still reports zero items in cart. -/
theorem C10_error_items_in_cart_witness :
    postLoop [] [⟨JsonVal.jstr "z", JsonVal.jstr "1"⟩]
      ((some [("5", (⟨"2", []⟩ : CartEntry))] : Option Cart).getD []) =
      .error (ERR_MSG_INVALID_PARAMS, [("5", ⟨"2", []⟩)]) ∧
    ((post [] (some [("5", ⟨"2", []⟩)])
        [⟨JsonVal.jstr "z", JsonVal.jstr "1"⟩]).response.items_in_cart = 0 ∧
      (post [] (some [("5", ⟨"2", []⟩)])
        [⟨JsonVal.jstr "z", JsonVal.jstr "1"⟩]).response.cart = [("5", ⟨"2", []⟩)] ∧
      (post [] (some [("5", ⟨"2", []⟩)])
        [⟨JsonVal.jstr "z", JsonVal.jstr "1"⟩]).sessionCart = some [("5", ⟨"2", []⟩)]) :=
  ⟨rfl, C10_error_items_in_cart [] (some [("5", ⟨"2", []⟩)]) _ _ _ rfl⟩

end Ebag
